import Mathlib

/-!
Shallow embedding of the `hidraw` repository core, checked against its
natural-language specification.

Embedded source files:
* `src/descriptor.rs` — the HID report-descriptor item parser
  (`parse_hid_descriptor`, `ItemTag::try_from` and the tag enums);
* `src/report.rs` — `HidReportParser` (`len`, `parse`),
  `logitech_f310_parser`, `find_report_parser_for_device`;
* `src/device_monitor.rs` — the pure core of the udev event loop of
  `monitor_devices_internal` and of `get_device_info`;
* `src/sdl_mapping.rs` — `create_sdl_controller_uuid`.

Bytes are modelled as `Nat` reduced `% 256` at each fetch, exactly where the
Rust code reads a `u8`.  Fallible Rust code returning `anyhow::Result` is
modelled with `Except DescError` / `Option`.  The `std::io::Cursor` of
`parse_hid_descriptor` is modelled as the byte list plus a position; the
`while read_exact(prefix).is_ok()` loop is driven by a fuel argument that the
entry point sets to `data.length + 1`, which is an upper bound on the number
of iterations because every iteration consumes at least the one prefix byte.
-/

namespace Hidraw

/-! ## src/descriptor.rs -/

/-- Errors of the descriptor parser.  The Rust code uses `anyhow`:
`Truncated` stands for the `std::io` `UnexpectedEof` failures of
`read_exact`, `BadItemType` for the `bail!("Bad item type")` on a
`Reserved` item type, `UnknownTag` for a `TryFromPrimitive` failure on a
tag nibble and `UnknownType` for a `TryFromPrimitive` failure on a type
value outside `0..=3`. -/
inductive DescError where
  | Truncated
  | BadItemType
  | UnknownTag
  | UnknownType
deriving DecidableEq, Repr

/-- `enum ItemData` of `src/descriptor.rs`. -/
inductive ItemData where
  | None
  | U8 (v : Nat)
  | U16 (v : Nat)
  | U32 (v : Nat)
deriving DecidableEq, Repr

/-- `enum ItemType` of `src/descriptor.rs`. -/
inductive ItemType where
  | Main
  | Global
  | Local
  | Reserved
deriving DecidableEq, Repr

/-- `enum MainItemTag` of `src/descriptor.rs`. -/
inductive MainItemTag where
  | Input
  | Output
  | Feature
  | Collection
  | EndCollection
deriving DecidableEq, Repr

/-- `enum GlobalItemTag` of `src/descriptor.rs`.  Note that the source
declares `Reserved = 0b1100` as a genuine variant of the enum. -/
inductive GlobalItemTag where
  | UsagePage
  | LogicalMinimum
  | LogicalMaximum
  | PhysicalMinimum
  | PhysicalMaximum
  | UnitExponent
  | Unit
  | ReportSize
  | ReportID
  | ReportCount
  | Push
  | Pop
  | Reserved
deriving DecidableEq, Repr

/-- `enum ItemTag` of `src/descriptor.rs`. -/
inductive ItemTag where
  | Main (t : MainItemTag)
  | Global (t : GlobalItemTag)
  | Local (tag : Nat)
deriving DecidableEq, Repr

/-- `ItemType::try_from` (derived by `TryFromPrimitive` with
`repr(u8)` values 0,1,2,3). -/
def ItemType.try_from (v : Nat) : Option ItemType :=
  if v = 0 then some ItemType.Main
  else if v = 1 then some ItemType.Global
  else if v = 2 then some ItemType.Local
  else if v = 3 then some ItemType.Reserved
  else none

/-- `MainItemTag::try_from` (derived by `TryFromPrimitive`):
Input=0b1000, Output=0b1001, Feature=0b1011, Collection=0b1010,
EndCollection=0b1100. -/
def MainItemTag.try_from (v : Nat) : Option MainItemTag :=
  if v = 0b1000 then some MainItemTag.Input
  else if v = 0b1001 then some MainItemTag.Output
  else if v = 0b1011 then some MainItemTag.Feature
  else if v = 0b1010 then some MainItemTag.Collection
  else if v = 0b1100 then some MainItemTag.EndCollection
  else none

/-- `GlobalItemTag::try_from` (derived by `TryFromPrimitive`):
values 0b0000 through 0b1100, the last being the `Reserved` variant. -/
def GlobalItemTag.try_from (v : Nat) : Option GlobalItemTag :=
  if v = 0b0000 then some GlobalItemTag.UsagePage
  else if v = 0b0001 then some GlobalItemTag.LogicalMinimum
  else if v = 0b0010 then some GlobalItemTag.LogicalMaximum
  else if v = 0b0011 then some GlobalItemTag.PhysicalMinimum
  else if v = 0b0100 then some GlobalItemTag.PhysicalMaximum
  else if v = 0b0101 then some GlobalItemTag.UnitExponent
  else if v = 0b0110 then some GlobalItemTag.Unit
  else if v = 0b0111 then some GlobalItemTag.ReportSize
  else if v = 0b1000 then some GlobalItemTag.ReportID
  else if v = 0b1001 then some GlobalItemTag.ReportCount
  else if v = 0b1010 then some GlobalItemTag.Push
  else if v = 0b1011 then some GlobalItemTag.Pop
  else if v = 0b1100 then some GlobalItemTag.Reserved
  else none

/-- `impl TryFrom<(u8, u8)> for ItemTag` of `src/descriptor.rs`:
resolve `(type value, tag nibble)` into an `ItemTag`, or fail. -/
def ItemTag.try_from (value : Nat × Nat) : Except DescError ItemTag :=
  match ItemType.try_from value.1 with
  | Option.none => Except.error DescError.UnknownType
  | some ItemType.Global =>
    match GlobalItemTag.try_from value.2 with
    | some g => Except.ok (ItemTag.Global g)
    | Option.none => Except.error DescError.UnknownTag
  | some ItemType.Main =>
    match MainItemTag.try_from value.2 with
    | some m => Except.ok (ItemTag.Main m)
    | Option.none => Except.error DescError.UnknownTag
  | some ItemType.Local => Except.ok (ItemTag.Local value.2)
  | some ItemType.Reserved => Except.error DescError.BadItemType

/-- The loop body of `parse_hid_descriptor`, iterated over the cursor
position `pos`.  Mirrors `src/descriptor.rs` lines 76–107:

* `while cur.read_exact(&mut prefix).is_ok()` — the `pos < data.length`
  guard; when it fails the loop ends and the function returns `Ok`;
* the `first == LONG_ITEM (0xFE)` branch reads the two-byte long-item
  header (`Truncated` if fewer than 2 bytes remain) and then
  `cur.seek(SeekFrom::Current(long_size))`, which on a `std::io::Cursor`
  always succeeds, even past the end of the buffer;
* the short-item branch extracts `size = first & 0b11`,
  `ty = (first & 0b1100) >> 2`, `tag = (first & 0b11110000) >> 4`,
  resolves the tag (propagating its error), then
  `read_exact(&mut data_buf[..size])` reads exactly `size` bytes
  (`Truncated` when fewer remain) into a zero-initialised 4-byte buffer,
  and builds the `ItemData` by the `match size` of the source, where the
  `3 => U32(from_le_bytes(data_buf))` arm sees `data_buf[3] = 0` because
  only `data_buf[..3]` was overwritten.

The items the Rust code prints with `println!` are returned as a list.
Fuel only decreases; `parse_hid_descriptor` supplies enough for any run. -/
def parse_go (data : List Nat) : Nat → Nat → Except DescError (List (ItemTag × ItemData))
  | 0, _ => Except.error DescError.Truncated
  | fuel + 1, pos =>
    if pos < data.length then
      if data.getD pos 0 % 256 = 0xFE then
        if pos + 3 ≤ data.length then
          parse_go data fuel (pos + 3 + data.getD (pos + 1) 0 % 256)
        else Except.error DescError.Truncated
      else
        let first := data.getD pos 0 % 256
        let size := first % 4
        match ItemTag.try_from (first / 4 % 4, first / 16 % 16) with
        | Except.error e => Except.error e
        | Except.ok tag =>
          if pos + 1 + size ≤ data.length then
            let b0 := data.getD (pos + 1) 0 % 256
            let b1 := data.getD (pos + 2) 0 % 256
            let b2 := data.getD (pos + 3) 0 % 256
            let d : ItemData :=
              if size = 0 then ItemData.None
              else if size = 1 then ItemData.U8 b0
              else if size = 2 then ItemData.U16 (b0 + 256 * b1)
              else ItemData.U32 (b0 + 256 * b1 + 65536 * b2)
            match parse_go data fuel (pos + 1 + size) with
            | Except.ok rest => Except.ok ((tag, d) :: rest)
            | Except.error e => Except.error e
          else Except.error DescError.Truncated
    else Except.ok []

/-- `parse_hid_descriptor` of `src/descriptor.rs`, enriched to return the
sequence of items it prints.  `data.length + 1` fuel suffices because every
loop iteration advances the cursor by at least one byte. -/
def parse_hid_descriptor (data : List Nat) : Except DescError (List (ItemTag × ItemData)) :=
  parse_go data (data.length + 1) 0

/-! ## src/report.rs -/

/-- `enum Size` of `src/report.rs`. -/
inductive Size where
  | Bits (s : Nat)
  | Bytes (s : Nat)
deriving DecidableEq, Repr

/-- `enum What` of `src/report.rs`.  The Rust fields `from`/`to` of
`Buttons` are keywords in Lean, hence the trailing underscores. -/
inductive What where
  | Buttons (from_ to_ : Nat)
  | Dpad (min max : Nat)
  | Axis (usage min max : Nat)
  | Const
  | Unknown
deriving DecidableEq, Repr

/-- `struct HidReportItem` of `src/report.rs`. -/
structure HidReportItem where
  size : Size
  what : What
deriving DecidableEq, Repr

/-- `struct HidReportParser` of `src/report.rs`. -/
structure HidReportParser where
  inputs : List HidReportItem
deriving DecidableEq, Repr

/-- `HidReportParser::len` of `src/report.rs`: fold the items' widths in
bits (`Bits(s) → s`, `Bytes(s) → s * 8`) and divide by 8 (the `/` of Rust
`usize`, i.e. truncating division). -/
def HidReportParser.len (self : HidReportParser) : Nat :=
  (self.inputs.foldl
    (fun sum i =>
      sum + match i.size with
            | Size.Bits s => s
            | Size.Bytes s => s * 8)
    0) / 8

/-- `HidReportParser::parse` of `src/report.rs`: the body is literally
empty (`pub fn parse(&self, _report: &[u8]) {}`), so it ignores the
report buffer and returns unit. -/
def HidReportParser.parse (_self : HidReportParser) (_report : List Nat) : Unit := ()

/-- The usage constants of `src/report.rs`. -/
def AXIS_X : Nat := 0x30
/-- `AXIS_Y` of `src/report.rs`. -/
def AXIS_Y : Nat := 0x31
/-- `AXIS_Z` of `src/report.rs`. -/
def AXIS_Z : Nat := 0x32
/-- `AXIS_RZ` of `src/report.rs`. -/
def AXIS_RZ : Nat := 0x35

/-- `logitech_f310_parser` of `src/report.rs`. -/
def logitechF310Parser : HidReportParser :=
  { inputs := [
      { size := Size.Bytes 1, what := What.Axis AXIS_X 0 255 },
      { size := Size.Bytes 1, what := What.Axis AXIS_Y 0 255 },
      { size := Size.Bytes 1, what := What.Axis AXIS_Z 0 255 },
      { size := Size.Bytes 1, what := What.Axis AXIS_RZ 0 255 },
      { size := Size.Bits 4, what := What.Dpad 0 7 },
      { size := Size.Bits 12, what := What.Buttons 0x01 0x0C },
      { size := Size.Bytes 2, what := What.Unknown } ] }

/-- `find_report_parser_for_device` of `src/report.rs`: the lookup is by
vendor id and product id only (`0x046D`, `0x0C216`, the latter equal to
`0xC216` as a `u16` literal). -/
def find_report_parser_for_device (vendor_id product_id : Nat) : Option HidReportParser :=
  if vendor_id = 0x046D ∧ product_id = 0x0C216 then some logitechF310Parser
  else none

/-! ## src/device_monitor.rs — pure core -/

/-- `GAMEPAD_USAGE` of `src/device_monitor.rs`. -/
def GAMEPAD_USAGE : List Nat := [0x05, 0x01, 0x09, 0x05]

/-- `JOYSTICK_USAGE` of `src/device_monitor.rs`. -/
def JOYSTICK_USAGE : List Nat := [0x05, 0x01, 0x09, 0x04]

/-- The attributes `get_device_info` extracts from a udev device and the
hidraw ioctl before its pure logic runs: the syspath (identity, abstracted
to a number), the vendor and product ids parsed from `HID_ID`, and the raw
HID descriptor bytes.  The I/O that obtains them is outside the model. -/
structure RawDevice where
  sys_path : Nat
  vendor_id : Nat
  product_id : Nat
  hid_descriptor : List Nat
deriving DecidableEq, Repr

/-- The fields of `struct DeviceInfo` of `src/device_monitor.rs` that the
pure core determines (paths, bus, name and serial are opaque strings read
from udev and are abstracted away). -/
structure DeviceInfo where
  sys_path : Nat
  vendor_id : Nat
  product_id : Nat
  hid_descriptor : List Nat
  parser : Option HidReportParser
deriving DecidableEq, Repr

/-- The pure core of `get_device_info` of `src/device_monitor.rs`
(lines 112–135): given the extracted attributes, reject descriptors that
start with neither `GAMEPAD_USAGE` nor `JOYSTICK_USAGE`
(`bail!("Not a gamepad")`, modelled as `none`), otherwise attach
`find_report_parser_for_device(vendor_id, product_id)` and return the
`DeviceInfo`. -/
def get_device_info (d : RawDevice) : Option DeviceInfo :=
  if GAMEPAD_USAGE.isPrefixOf d.hid_descriptor ∨ JOYSTICK_USAGE.isPrefixOf d.hid_descriptor then
    some { sys_path := d.sys_path
           vendor_id := d.vendor_id
           product_id := d.product_id
           hid_descriptor := d.hid_descriptor
           parser := find_report_parser_for_device d.vendor_id d.product_id }
  else Option.none

/-- `enum DeviceEvent` of `src/device_monitor.rs`. -/
inductive DeviceEvent where
  | Added (info : DeviceInfo)
  | Removed (sys_path : Nat)
deriving DecidableEq, Repr

/-- A udev monitor event as seen by the loop of
`monitor_devices_internal`: an `Add` event carrying the device it refers
to, a `Remove` event carrying a syspath, or any other event type
(ignored by the `_ => {}` arm). -/
inductive UdevEvent where
  | Add (device : RawDevice)
  | Remove (sys_path : Nat)
  | Other
deriving DecidableEq, Repr

/-- The state of `monitor_devices_internal`: the `HashSet` of tracked
syspaths (modelled as a duplicate-free list) together with the sequence
of `DeviceEvent`s sent on `tx` so far. -/
structure MonitorState where
  devices : List Nat
  sent : List DeviceEvent
deriving DecidableEq, Repr

/-- `HashSet::insert`: adds the element when absent; the Rust code
ignores the returned boolean. -/
def hashset_insert (l : List Nat) (x : Nat) : List Nat :=
  if x ∈ l then l else l ++ [x]

/-- One iteration of the `while let Some(event) = monitor.next().await`
loop of `monitor_devices_internal` (`src/device_monitor.rs` lines
182–206):

* `EventType::Add` — run `get_device_info`; on success insert the
  syspath into `devices` (return value of the insert ignored) and send
  `DeviceEvent::Added(info)` unconditionally; on failure do nothing;
* `EventType::Remove` — if `devices.remove(syspath)` returns true, send
  `DeviceEvent::Removed(syspath)`; otherwise only `warn!`, which changes
  no state and sends nothing;
* anything else — ignored. -/
def process_udev_event (s : MonitorState) (e : UdevEvent) : MonitorState :=
  match e with
  | UdevEvent.Add d =>
    match get_device_info d with
    | some info =>
      { devices := hashset_insert s.devices info.sys_path
        sent := s.sent ++ [DeviceEvent.Added info] }
    | Option.none => s
  | UdevEvent.Remove p =>
    if p ∈ s.devices then
      { devices := s.devices.erase p
        sent := s.sent ++ [DeviceEvent.Removed p] }
    else s
  | UdevEvent.Other => s

/-- The monitor loop folded over a finite sequence of udev events. -/
def process_udev_events (s : MonitorState) (es : List UdevEvent) : MonitorState :=
  es.foldl process_udev_event s

/-! ## src/sdl_mapping.rs -/

/-- `u16::to_le_bytes`, as the two bytes of a value already reduced
below `2^16`. -/
def u16_to_le_bytes (v : Nat) : List Nat := [v % 256, v / 256 % 256]

/-- `create_sdl_controller_uuid` of `src/sdl_mapping.rs`: a 16-byte
array, whose consecutive 2-byte chunks receive the little-endian bytes
of `bus, 0, vendor, 0, product, 0, version, 0` in order.  The Rust
arguments are `u16`; the `% 65536` reductions make the `Nat` model agree
with them. -/
def create_sdl_controller_uuid (bus vendor product version : Nat) : List Nat :=
  u16_to_le_bytes (bus % 65536) ++ [0, 0] ++
  u16_to_le_bytes (vendor % 65536) ++ [0, 0] ++
  u16_to_le_bytes (product % 65536) ++ [0, 0] ++
  u16_to_le_bytes (version % 65536) ++ [0, 0]

/-! ## Auxiliary definitions for the theorems -/

/-- Decidable equality for `Except`, needed to evaluate parser results
inside `decide`. -/
instance {ε α : Type} [DecidableEq ε] [DecidableEq α] : DecidableEq (Except ε α) := fun x y =>
  match x, y with
  | Except.ok a, Except.ok b =>
    if h : a = b then isTrue (by rw [h]) else isFalse (fun hc => h (Except.ok.inj hc))
  | Except.error a, Except.error b =>
    if h : a = b then isTrue (by rw [h]) else isFalse (fun hc => h (Except.error.inj hc))
  | Except.ok _, Except.error _ => isFalse (fun hc => Except.noConfusion hc)
  | Except.error _, Except.ok _ => isFalse (fun hc => Except.noConfusion hc)

/-- The spec's notion of a layout's total size: the sum of the fields'
bit widths.  Stated with `item_size_bits` below, separately from the
fold inside `HidReportParser.len`, so the two can be compared. -/
def item_size_bits (i : HidReportItem) : Nat :=
  match i.size with
  | Size.Bits s => s
  | Size.Bytes s => s * 8

/-- Sum of the bit widths of all fields of a layout (the spec's
`total_bits`). -/
def total_bits (p : HidReportParser) : Nat :=
  (p.inputs.map item_size_bits).sum

/-- A gamepad-descriptor device with untracked ids (no layout found). -/
def d0 : RawDevice := ⟨0, 0, 0, [0x05, 0x01, 0x09, 0x05]⟩

/-- The `DeviceInfo` that `get_device_info` produces for `d0`. -/
def info0 : DeviceInfo := ⟨0, 0, 0, [0x05, 0x01, 0x09, 0x05], Option.none⟩

/-- A device with the Logitech F310 ids and a gamepad descriptor. -/
def dA : RawDevice := ⟨10, 0x046D, 0xC216, [0x05, 0x01, 0x09, 0x05]⟩

/-- A device with unknown ids but exactly the same descriptor bytes
as `dA`. -/
def dB : RawDevice := ⟨11, 0x1234, 0x5678, [0x05, 0x01, 0x09, 0x05]⟩

/-- A device with the Logitech F310 ids and a different (joystick)
descriptor than `dA`. -/
def dC : RawDevice := ⟨12, 0x046D, 0xC216, [0x05, 0x01, 0x09, 0x04]⟩

/-- The `DeviceInfo` that `get_device_info` produces for `dA`. -/
def infoA : DeviceInfo := ⟨10, 0x046D, 0xC216, [0x05, 0x01, 0x09, 0x05], some logitechF310Parser⟩

/-- The `DeviceInfo` that `get_device_info` produces for `dC`. -/
def infoC : DeviceInfo := ⟨12, 0x046D, 0xC216, [0x05, 0x01, 0x09, 0x04], some logitechF310Parser⟩

/-- A one-field layout of 12 bits, the spec's own worked example for
byte-length rounding. -/
def twelveBitLayout : HidReportParser := ⟨[⟨Size.Bits 12, What.Unknown⟩]⟩

/-! ## Claim C1 -/

/-- Claim C1, evaluated where the claim and the code part ways.  The
short item `0x27` has size bits `3`, type `Global`, tag `LogicalMaximum`.
On the buffer `[0x27, 1, 2, 3, 4]` the claim predicts that the parser
consumes four payload bytes and yields the single item
`U32 0x04030201`.  The code's `read_exact(&mut data_buf[..size])` reads
only `size = 3` bytes, so it produces `U32 0x030201` (high byte zero)
and then misreads the leftover byte `0x04` as a fresh prefix, yielding a
second item `(Global UsagePage, None)`. -/
theorem c1_size3_consumes_three_bytes :
    parse_hid_descriptor [0x27, 1, 2, 3, 4] =
      Except.ok [(ItemTag.Global GlobalItemTag.LogicalMaximum, ItemData.U32 0x030201),
                 (ItemTag.Global GlobalItemTag.UsagePage, ItemData.None)] ∧
    parse_hid_descriptor [0x27, 1, 2, 3, 4] ≠
      Except.ok [(ItemTag.Global GlobalItemTag.LogicalMaximum, ItemData.U32 0x04030201)] := by
  constructor
  · rfl
  · decide

/-! ## Claim C3 -/

/-- Claim C3, counterexample.  The buffer `[0xFE, 5, 0, 0xAA, 0xBB]`
holds a long item declaring `L = 5` data bytes while only 2 remain after
the length and long-tag bytes.  The claim says parsing fails with
`Truncated`; in the code `Cursor::seek` past the end succeeds, the next
`read_exact` of a prefix byte fails, the `while` loop ends, and
`parse_hid_descriptor` returns `Ok` with no further items. -/
theorem c3_counterexample :
    parse_hid_descriptor [0xFE, 5, 0, 0xAA, 0xBB] = Except.ok [] ∧
    parse_hid_descriptor [0xFE, 5, 0, 0xAA, 0xBB] ≠ Except.error DescError.Truncated := by
  constructor
  · rfl
  · decide

/-- Claim C3 as amended: whenever a long item's length and long-tag
bytes are present (`pos + 3 ≤ data.length`) but fewer than `L` bytes
remain after them, the parser does not fail: the skip lands past the end
of the buffer, the loop's next prefix read fails, and parsing returns
`Ok` with no items emitted beyond that point — so no byte past the end
is ever read, but no `Truncated` error is raised either. -/
theorem c3_long_item_overrun_returns_ok (data : List Nat) (pos L fuel : Nat)
    (hpre : data.getD pos 0 % 256 = 0xFE)
    (hhdr : pos + 3 ≤ data.length)
    (hL : data.getD (pos + 1) 0 % 256 = L)
    (hshort : data.length < pos + 3 + L) :
    parse_go data (fuel + 2) pos = Except.ok [] := by
  have h1 : pos < data.length := by omega
  have h2 : ¬ (pos + 3 + L < data.length) := by omega
  unfold parse_go
  rw [if_pos h1, if_pos hpre, if_pos hhdr, hL]
  unfold parse_go
  rw [if_neg h2]

/-- Claim C3, witness for the amended theorem, instantiated at the
counterexample's buffer with enough fuel for the whole parse
(`parse_go data 6 0` is what `parse_hid_descriptor` runs there). -/
theorem c3_witness :
    ([0xFE, 5, 0, 0xAA, 0xBB] : List Nat).getD 0 0 % 256 = 0xFE ∧
    0 + 3 ≤ ([0xFE, 5, 0, 0xAA, 0xBB] : List Nat).length ∧
    ([0xFE, 5, 0, 0xAA, 0xBB] : List Nat).getD 1 0 % 256 = 5 ∧
    ([0xFE, 5, 0, 0xAA, 0xBB] : List Nat).length < 0 + 3 + 5 ∧
    parse_go [0xFE, 5, 0, 0xAA, 0xBB] 6 0 = Except.ok [] :=
  ⟨by decide, by decide, by decide, by decide,
   c3_long_item_overrun_returns_ok [0xFE, 5, 0, 0xAA, 0xBB] 0 5 4
     (by decide) (by decide) (by decide) (by decide)⟩

/-! ## Claim C4 -/

/-- Claim C4, counterexample.  The claim says Global tag `0xC` is
outside the closed tag table and must be rejected with `UnknownTag`.
The code's `GlobalItemTag` enum contains `Reserved = 0b1100`, so
`ItemTag::try_from((1, 0xC))` succeeds. -/
theorem c4_counterexample :
    ItemTag.try_from (1, 0xC) = Except.ok (ItemTag.Global GlobalItemTag.Reserved) ∧
    ItemTag.try_from (1, 0xC) ≠ Except.error DescError.UnknownTag := by
  decide

/-- Claim C4 as amended, for every tag nibble: item type `Reserved` (3)
always fails with the reserved-type error; a `Main` or `Global` tag
fails with `UnknownTag` exactly when it is outside the code's tag enum —
but the code's Global enum includes `0xC` as `GlobalItemTag::Reserved`,
which is therefore accepted, not rejected; `Local` tags always pass
through. -/
theorem c4_tag_resolution :
    ∀ t : Fin 16,
      ItemTag.try_from (3, t.val) = Except.error DescError.BadItemType ∧
      (ItemTag.try_from (0, t.val) = Except.error DescError.UnknownTag ↔
        MainItemTag.try_from t.val = Option.none) ∧
      (ItemTag.try_from (1, t.val) = Except.error DescError.UnknownTag ↔
        GlobalItemTag.try_from t.val = Option.none) ∧
      ItemTag.try_from (2, t.val) = Except.ok (ItemTag.Local t.val) ∧
      ItemTag.try_from (1, 0xC) = Except.ok (ItemTag.Global GlobalItemTag.Reserved) := by
  decide

/-! ## Claim C2 -/

/-- Claim C2, counterexample.  Starting from an empty registry, two
`Add` events for the same device `d0` leave one tracked syspath but send
two `Added` notifications downstream: `devices.insert` has its boolean
result ignored and `tx.send(DeviceEvent::Added(info))` runs
unconditionally, so the second `Added` is not a no-op. -/
theorem c2_counterexample :
    (process_udev_events ⟨[], []⟩ [UdevEvent.Add d0, UdevEvent.Add d0]).devices = [0] ∧
    (process_udev_events ⟨[], []⟩ [UdevEvent.Add d0, UdevEvent.Add d0]).sent =
      [DeviceEvent.Added info0, DeviceEvent.Added info0] := by
  decide

/-- Claim C2 as amended: an `Add` event for an already-tracked
`sys_path` leaves the tracked-device set unchanged but still sends a
second `Added` notification downstream.  (The monitor loop spawns no
watcher tasks at all, so no statement about watcher counts holds of
it.) -/
theorem c2_second_add_resends (s : MonitorState) (d : RawDevice) (info : DeviceInfo)
    (h1 : get_device_info d = some info) (h2 : info.sys_path ∈ s.devices) :
    process_udev_event s (UdevEvent.Add d) =
      { devices := s.devices, sent := s.sent ++ [DeviceEvent.Added info] } := by
  simp [process_udev_event, h1, hashset_insert, h2]

/-- Claim C2, witness for the amended theorem: after `d0` is tracked, a
second `Add d0` keeps the set `[0]` and appends a duplicate
notification. -/
theorem c2_witness :
    get_device_info d0 = some info0 ∧
    info0.sys_path ∈ ([0] : List Nat) ∧
    process_udev_event ⟨[0], [DeviceEvent.Added info0]⟩ (UdevEvent.Add d0) =
      ⟨[0], [DeviceEvent.Added info0] ++ [DeviceEvent.Added info0]⟩ :=
  ⟨by decide, by decide,
   c2_second_add_resends ⟨[0], [DeviceEvent.Added info0]⟩ d0 info0 (by decide) (by decide)⟩

/-! ## Claim C5 -/

/-- Claim C5, counterexample.  `dA` and `dB` supply identical raw
descriptor bytes, but the layout attached on `Added` differs: the lookup
`find_report_parser_for_device` keys on `(vendor_id, product_id)` and
never reads the descriptor, so `dA` (Logitech ids) gets the F310 layout
while `dB` gets none. -/
theorem c5_counterexample :
    dA.hid_descriptor = dB.hid_descriptor ∧
    Option.map DeviceInfo.parser (get_device_info dA) = some (some logitechF310Parser) ∧
    Option.map DeviceInfo.parser (get_device_info dB) = some Option.none := by
  decide

/-- Claim C5 as amended: the layout attached to a device on `Added` is a
pure, deterministic function of `(vendor_id, product_id)` alone — any
two accepted devices with equal ids receive identical layouts, even with
different raw descriptor bytes; the descriptor influences only the
gamepad/joystick acceptance check, never the layout contents. -/
theorem c5_parser_function_of_ids (d1 d2 : RawDevice) (i1 i2 : DeviceInfo)
    (h1 : get_device_info d1 = some i1) (h2 : get_device_info d2 = some i2)
    (hv : d1.vendor_id = d2.vendor_id) (hp : d1.product_id = d2.product_id) :
    i1.parser = i2.parser := by
  simp only [get_device_info] at h1 h2
  split at h1
  · split at h2
    · cases h1
      cases h2
      simp [hv, hp]
    · exact absurd h2 (by simp)
  · exact absurd h1 (by simp)

/-- Claim C5, witness for the amended theorem: `dA` and `dC` share the
Logitech ids but have different descriptors, and both receive the F310
layout. -/
theorem c5_witness :
    get_device_info dA = some infoA ∧
    get_device_info dC = some infoC ∧
    dA.vendor_id = dC.vendor_id ∧
    dA.product_id = dC.product_id ∧
    infoA.parser = infoC.parser :=
  ⟨by decide, by decide, by decide, by decide,
   c5_parser_function_of_ids dA dC infoA infoC (by decide) (by decide) (by decide) (by decide)⟩

/-! ## Claim C8 -/

/-- Claim C8: a `Remove` event for a syspath that was never tracked
takes the `else` branch of `if devices.remove(syspath)`, which only logs
a warning: the monitor state (tracked set and sent notifications) is
unchanged, no error is returned, and the loop's fold over any further
events proceeds exactly as if the event had not occurred. -/
theorem c8_untracked_remove_is_warning_only (s : MonitorState) (p : Nat)
    (es : List UdevEvent) (h : p ∉ s.devices) :
    process_udev_event s (UdevEvent.Remove p) = s ∧
    process_udev_events s (UdevEvent.Remove p :: es) = process_udev_events s es := by
  have h1 : process_udev_event s (UdevEvent.Remove p) = s := by
    simp [process_udev_event, h]
  exact ⟨h1, by simp [process_udev_events, List.foldl_cons, h1]⟩

/-- Claim C8, witness: removing the never-added syspath `0` from a
registry tracking only `1` changes nothing, before and after a further
event. -/
theorem c8_witness :
    (0 : Nat) ∉ ([1] : List Nat) ∧
    (process_udev_event ⟨[1], []⟩ (UdevEvent.Remove 0) = ⟨[1], []⟩ ∧
     process_udev_events ⟨[1], []⟩ [UdevEvent.Remove 0, UdevEvent.Remove 1] =
       process_udev_events ⟨[1], []⟩ [UdevEvent.Remove 1]) :=
  ⟨by decide,
   c8_untracked_remove_is_warning_only ⟨[1], []⟩ 0 [UdevEvent.Remove 1] (by decide)⟩

/-! ## Claim C6 -/

/-- Helper: the fold inside `HidReportParser::len` computes the sum of
the items' bit widths on top of its accumulator. -/
theorem len_fold_eq_sum (l : List HidReportItem) (n : Nat) :
    l.foldl
      (fun sum i =>
        sum + match i.size with
              | Size.Bits s => s
              | Size.Bytes s => s * 8)
      n = n + (l.map item_size_bits).sum := by
  induction l generalizing n with
  | nil => simp
  | cons i l ih =>
    simp only [List.foldl_cons, List.map_cons, List.sum_cons, ih]
    have h : (match i.size with
              | Size.Bits s => s
              | Size.Bytes s => s * 8) = item_size_bits i := rfl
    omega

/-- Claim C6, counterexample.  A layout with a single 12-bit field: the
claim says its byte length is `ceil(12 / 8) = 2`, but
`HidReportParser::len` computes `bits / 8` with truncating division and
returns `1`. -/
theorem c6_counterexample :
    twelveBitLayout.len = 1 ∧ twelveBitLayout.len ≠ 2 := by
  decide

/-- Claim C6 as amended: a `ReportLayout`'s byte length equals the sum
of its fields' bit widths divided by 8 rounding down (truncating
division), which coincides with rounding up exactly when the total is a
whole number of bytes. -/
theorem c6_len_is_floor_of_total_bits (p : HidReportParser) :
    p.len = total_bits p / 8 ∧
    (total_bits p % 8 = 0 → p.len = (total_bits p + 7) / 8) := by
  have h : p.len = total_bits p / 8 := by
    unfold HidReportParser.len total_bits
    rw [len_fold_eq_sum, Nat.zero_add]
  refine ⟨h, fun hm => ?_⟩
  rw [h]
  omega

/-- Claim C6, witness for the amended theorem at the one layout the
source constructs: the F310 layout totals 64 bits, and its byte length
is `64 / 8 = 8 = (64 + 7) / 8`. -/
theorem c6_witness :
    logitechF310Parser.len = total_bits logitechF310Parser / 8 ∧
    total_bits logitechF310Parser % 8 = 0 ∧
    logitechF310Parser.len = (total_bits logitechF310Parser + 7) / 8 := by
  have h := c6_len_is_floor_of_total_bits logitechF310Parser
  exact ⟨h.1, by decide, h.2 (by decide)⟩

/-! ## Claim C7 -/

/-- Claim C7, counterexample.  The F310 layout needs 8 bytes, yet
decoding the empty buffer against it does not fail:
`HidReportParser::parse` has an empty body and returns unit for every
input, so no `TooShort` (or any other) error can occur. -/
theorem c7_counterexample :
    logitechF310Parser.parse [] = () ∧ 0 < logitechF310Parser.len := by
  exact ⟨rfl, by decide⟩

/-- Claim C7 as amended: decoding a raw report buffer against a layout
never fails, whatever the buffer length — `parse` ignores both arguments
and returns unit, so in particular it never raises a `TooShort` error
for a buffer shorter than the layout's byte length. -/
theorem c7_parse_never_fails (p : HidReportParser) (report : List Nat) :
    p.parse report = () := rfl

/-! ## Claim C10 -/

/-- Claim C10: for 16-bit inputs, `create_sdl_controller_uuid` lays out
the little-endian bytes of `bus`, `vendor`, `product`, `version` at
offsets 0–1, 4–5, 8–9, 12–13, zeroes elsewhere, and is injective. -/
theorem c10_uuid_layout_and_injective
    (b v p ver b' v' p' ver' : Nat)
    (hb : b < 65536) (hv : v < 65536) (hp : p < 65536) (hver : ver < 65536)
    (hb' : b' < 65536) (hv' : v' < 65536) (hp' : p' < 65536) (hver' : ver' < 65536) :
    create_sdl_controller_uuid b v p ver =
      [b % 256, b / 256, 0, 0, v % 256, v / 256, 0, 0,
       p % 256, p / 256, 0, 0, ver % 256, ver / 256, 0, 0] ∧
    (create_sdl_controller_uuid b v p ver = create_sdl_controller_uuid b' v' p' ver' →
      b = b' ∧ v = v' ∧ p = p' ∧ ver = ver') := by
  constructor
  · simp only [create_sdl_controller_uuid, u16_to_le_bytes, List.cons_append,
      List.nil_append, List.cons.injEq, and_true, true_and]
    omega
  · intro h
    simp only [create_sdl_controller_uuid, u16_to_le_bytes, List.cons_append,
      List.nil_append, List.cons.injEq, and_true, true_and] at h
    omega

/-- Claim C10, witness at the Wii U Pro Controller identity of the
comment in `src/sdl_mapping.rs` (bus 5, vendor 0x057E, product 0x0330,
version 0x0001). -/
theorem c10_witness :
    ((5 : Nat) < 65536 ∧ (0x057E : Nat) < 65536 ∧ (0x0330 : Nat) < 65536 ∧
      (1 : Nat) < 65536) ∧
    (create_sdl_controller_uuid 5 0x057E 0x0330 1 =
      [5 % 256, 5 / 256, 0, 0, 0x057E % 256, 0x057E / 256, 0, 0,
       0x0330 % 256, 0x0330 / 256, 0, 0, 1 % 256, 1 / 256, 0, 0] ∧
     (create_sdl_controller_uuid 5 0x057E 0x0330 1 =
        create_sdl_controller_uuid 5 0x057E 0x0330 1 →
      5 = 5 ∧ 0x057E = 0x057E ∧ 0x0330 = 0x0330 ∧ 1 = 1)) :=
  ⟨⟨by decide, by decide, by decide, by decide⟩,
   c10_uuid_layout_and_injective 5 0x057E 0x0330 1 5 0x057E 0x0330 1
     (by decide) (by decide) (by decide) (by decide)
     (by decide) (by decide) (by decide) (by decide)⟩

end Hidraw
